import Mathlib

/-!
Verification of the environment-driven configuration logic of
`src/core/settings.py` (the settings module of the Bangladesh Location API).

The module is straight-line Python executed once at startup: it reads
environment variables, derives setting values with default fallbacks, and
prints warnings when insecure defaults are used.  We embed it shallowly:

* a Python string is a `List Char` (`Str`);
* the process environment is a function `String → Option Str`
  (`os.getenv` returns `None` when a variable is unset);
* `str.split(",")` and `str.strip()` are modelled by `splitComma` and
  `pyStrip` below, following Python semantics
  (`"".split(",") == [""]`, empty pieces are kept, `strip` removes
  leading and trailing whitespace);
* the nondeterministic `get_random_secret_key()` is a parameter;
* each `print("WARNING: ...")` is recorded in a `warnings` list;
* the whole module becomes the total function `loadSettings`.
-/

/-- A Python string, modelled as its list of characters. -/
abbrev Str := List Char

/-- The process environment: a variable name maps to its value,
`none` when the variable is unset. -/
def Env := String → Option Str

/-- Characters removed by Python's `str.strip()` (the ASCII whitespace
characters: space, tab, newline, carriage return, vertical tab, form feed). -/
def isPyWs (c : Char) : Bool :=
  c = ' ' || c = '\t' || c = '\n' || c = '\r' || c = '\x0b' || c = '\x0c'

/-- Python `s.strip()`: remove leading and trailing whitespace. -/
def pyStrip (s : Str) : Str :=
  ((s.dropWhile isPyWs).reverse.dropWhile isPyWs).reverse

/-- Python `s.split(",")`: cut at every comma, keeping empty pieces;
the empty string yields `[""]`. -/
def splitComma : Str → List Str
  | [] => [[]]
  | c :: cs =>
    if c = ',' then
      [] :: splitComma cs
    else
      match splitComma cs with
      | [] => [[c]]
      | p :: ps => (c :: p) :: ps

/-- `print` message at settings.py line 20. -/
def secretKeyWarning : String :=
  "WARNING: Secret key not set. Using a random secret key."

/-- `print` message at settings.py line 26. -/
def debugWarning : String := "WARNING: Debug mode is enabled."

/-- `print` message at settings.py line 93. -/
def dbWarning : String :=
  "WARNING: No database URL found in the environment. Using SQLite."

/-- `print` message at settings.py line 146. -/
def corsAllWarning : String := "WARNING: All CORS origins are allowed."

/-- `print` message at settings.py line 155. -/
def corsNoneWarning : String := "WARNING: No CORS origins are allowed."

/-- settings.py lines 22-26: `DEBUG = os.getenv("DEBUG", "False") == "True"`. -/
def debugOf (env : Env) : Bool :=
  (env "DEBUG").getD "False".data == "True".data

/-- settings.py lines 15-20: take `SECRET_KEY` from the environment and fall
back to a freshly generated random key when it is unset or empty
(`if not SECRET_KEY`); `randomKey` stands for `get_random_secret_key()`. -/
def secretKeyOf (env : Env) (randomKey : Str) : Str :=
  if (env "SECRET_KEY").getD [] = [] then randomKey
  else (env "SECRET_KEY").getD []

/-- settings.py lines 90-94: the database URL, with the SQLite fallback when
`DATABASE_URL` is unset or empty (`if not DATABASE_URL`). -/
def databaseUrlOf (env : Env) : Str :=
  if (env "DATABASE_URL").getD [] = [] then "sqlite:///db.sqlite3".data
  else (env "DATABASE_URL").getD []

/-- settings.py lines 149-153: the list comprehension
`[origin.strip() for origin in os.getenv("CORS_ALLOWED_ORIGINS", "").split(",")
if origin.strip()]`, applied to the raw environment value. -/
def corsList (v : Str) : List Str :=
  (splitComma v).filterMap
    (fun origin => if pyStrip origin = [] then none else some (pyStrip origin))

/-- The warnings the module prints, in source order
(lines 20, 26, 93, 146/155). -/
def warningsOf (env : Env) : List String :=
  (if (env "SECRET_KEY").getD [] = [] then [secretKeyWarning] else []) ++
  (if debugOf env then [debugWarning] else []) ++
  (if (env "DATABASE_URL").getD [] = [] then [dbWarning] else []) ++
  (if env "CORS_ALLOWED_ORIGINS" = some "*".data then [corsAllWarning]
   else if corsList ((env "CORS_ALLOWED_ORIGINS").getD []) = [] then
     [corsNoneWarning]
   else [])

/-- The settings the claims are about.  `CORS_ALLOW_ALL_ORIGINS` and
`CORS_ALLOWED_ORIGINS` are `Option`s because each is assigned in only one
branch of the `if` at settings.py lines 145-153: `none` means the Python
name is never bound. -/
structure Settings where
  SECRET_KEY : Str
  DEBUG : Bool
  ALLOWED_HOSTS : List Str
  DATABASE_URL : Str
  CORS_ALLOW_CREDENTIALS : Bool
  CORS_ALLOW_ALL_ORIGINS : Option Bool
  CORS_ALLOWED_ORIGINS : Option (List Str)
  consoleLevel : String
  fileLevel : String
  rootLevel : String
  EMAIL_BACKEND : String
  warnings : List String

/-- The whole settings module as one total function of the environment and
of the random key `get_random_secret_key()` would return.  Field for field:

* `SECRET_KEY` — lines 15-20;
* `DEBUG` — line 24;
* `ALLOWED_HOSTS` — line 30: `os.getenv("ALLOWED_HOSTS", "localhost").split(",")`;
* `DATABASE_URL` — lines 90-94 (the URL handed to `dj_database_url.config`);
* `CORS_ALLOW_CREDENTIALS` — line 144;
* `CORS_ALLOW_ALL_ORIGINS` / `CORS_ALLOWED_ORIGINS` — lines 145-153;
* `consoleLevel`, `fileLevel`, `rootLevel` — lines 181, 186, 194 of the
  `LOGGING` dictionary;
* `EMAIL_BACKEND` — lines 202-206;
* `warnings` — every `print` the module executes, in order. -/
def loadSettings (env : Env) (randomKey : Str) : Settings where
  SECRET_KEY := secretKeyOf env randomKey
  DEBUG := debugOf env
  ALLOWED_HOSTS := splitComma ((env "ALLOWED_HOSTS").getD "localhost".data)
  DATABASE_URL := databaseUrlOf env
  CORS_ALLOW_CREDENTIALS := true
  CORS_ALLOW_ALL_ORIGINS :=
    if env "CORS_ALLOWED_ORIGINS" = some "*".data then some true else none
  CORS_ALLOWED_ORIGINS :=
    if env "CORS_ALLOWED_ORIGINS" = some "*".data then none
    else some (corsList ((env "CORS_ALLOWED_ORIGINS").getD []))
  consoleLevel := if debugOf env then "DEBUG" else "INFO"
  fileLevel := "WARNING"
  rootLevel := if debugOf env then "DEBUG" else "INFO"
  EMAIL_BACKEND :=
    if debugOf env then "django.core.mail.backends.console.EmailBackend"
    else "django.core.mail.backends.smtp.EmailBackend"
  warnings := warningsOf env

example : splitComma "a,b".data = ["a".data, "b".data] := by decide

example : splitComma [] = [[]] := by decide

example : splitComma ", ,".data = [[], [' '], []] := by decide

example : pyStrip "  a b  ".data = "a b".data := by decide

example : corsList "a, ,".data = ["a".data] := by decide

example : corsList "*,example.com".data = ["*".data, "example.com".data] := by decide

/-! ### Helper lemmas about the string operations -/

theorem splitComma_ne_nil (s : Str) : splitComma s ≠ [] := by
  induction s with
  | nil => simp [splitComma]
  | cons c cs ih =>
    rw [splitComma]
    split
    · exact List.cons_ne_nil _ _
    · split
      · exact List.cons_ne_nil _ _
      · exact List.cons_ne_nil _ _

theorem char_of_mem_splitComma {s p : Str} (hp : p ∈ splitComma s) :
    ∀ c ∈ p, c ∈ s ∧ c ≠ ',' := by
  induction s generalizing p with
  | nil =>
    rw [splitComma] at hp
    simp only [List.mem_singleton] at hp
    subst hp
    simp
  | cons a as ih =>
    rw [splitComma] at hp
    by_cases ha : a = ','
    · rw [if_pos ha] at hp
      rcases List.mem_cons.mp hp with hp | hp
      · subst hp; simp
      · intro c hc
        obtain ⟨hcs, hne⟩ := ih hp c hc
        exact ⟨List.mem_cons_of_mem _ hcs, hne⟩
    · rw [if_neg ha] at hp
      cases hsp : splitComma as with
      | nil => exact absurd hsp (splitComma_ne_nil as)
      | cons q qs =>
        rw [hsp] at hp
        simp only [] at hp
        rcases List.mem_cons.mp hp with hp | hp
        · subst hp
          intro c hc
          rcases List.mem_cons.mp hc with rfl | hc
          · exact ⟨List.mem_cons_self _ _, ha⟩
          · obtain ⟨hcs, hne⟩ := ih (hsp ▸ List.mem_cons_self q qs) c hc
            exact ⟨List.mem_cons_of_mem _ hcs, hne⟩
        · intro c hc
          obtain ⟨hcs, hne⟩ := ih (hsp ▸ List.mem_cons_of_mem q hp) c hc
          exact ⟨List.mem_cons_of_mem _ hcs, hne⟩

theorem pyStrip_eq_nil_of_ws {s : Str} (h : ∀ c ∈ s, isPyWs c) :
    pyStrip s = [] := by
  unfold pyStrip
  have h1 : s.dropWhile isPyWs = [] := List.dropWhile_eq_nil_iff.mpr h
  rw [h1]
  rfl

theorem corsList_eq_map_filter (v : Str) :
    corsList v = ((splitComma v).map pyStrip).filter (fun o => o ≠ []) := by
  unfold corsList
  generalize splitComma v = l
  induction l with
  | nil => rfl
  | cons p ps ih =>
    simp only [List.filterMap_cons, List.map_cons, List.filter_cons]
    by_cases hp : pyStrip p = []
    · simp [hp, ih]
    · simp [hp, ih]

theorem corsList_eq_nil_of_blank {s : Str}
    (h : ∀ c ∈ s, c = ',' ∨ isPyWs c) : corsList s = [] := by
  rw [corsList_eq_map_filter]
  rw [List.filter_eq_nil_iff]
  intro a ha
  simp only [List.mem_map] at ha
  obtain ⟨p, hp, rfl⟩ := ha
  have hnil : pyStrip p = [] := by
    apply pyStrip_eq_nil_of_ws
    intro c hc
    obtain ⟨hcs, hne⟩ := char_of_mem_splitComma hp c hc
    rcases h c hcs with h1 | h1
    · exact absurd h1 hne
    · exact h1
  simp [hnil]

theorem debugOf_eq_true_iff (env : Env) :
    debugOf env = true ↔ env "DEBUG" = some "True".data := by
  unfold debugOf
  cases h : env "DEBUG" with
  | none => decide
  | some s => simp only [Option.getD_some, beq_iff_eq, Option.some.injEq]

/-! ### Concrete environments used by witnesses and counterexamples -/

/-- An environment with every variable unset. -/
def envNone : Env := fun _ => none

/-- An environment with `DEBUG` set to `"True"` and everything else unset. -/
def envDebug : Env :=
  fun n => if n = "DEBUG" then some "True".data else none

/-- An environment with `CORS_ALLOWED_ORIGINS` set to `"*"`. -/
def envStar : Env :=
  fun n => if n = "CORS_ALLOWED_ORIGINS" then some "*".data else none

/-- An environment with `CORS_ALLOWED_ORIGINS` set to `" * "` (the wildcard
character surrounded by spaces). -/
def envStarPad : Env :=
  fun n => if n = "CORS_ALLOWED_ORIGINS" then some " * ".data else none

/-- An environment with `CORS_ALLOWED_ORIGINS` set to `"a,"`: one real origin
followed by a trailing comma, so that splitting yields an empty last piece. -/
def envTrailingComma : Env :=
  fun n => if n = "CORS_ALLOWED_ORIGINS" then some "a,".data else none

/-! ### Claim theorems -/

/-- C1: if the environment variable `CORS_ALLOWED_ORIGINS` is absent, or its
value is empty or consists only of commas and whitespace, the resulting
`CORS_ALLOWED_ORIGINS` setting is the empty list and the warning that no
CORS origins are allowed is printed. -/
theorem cors_empty_of_blank_env (env : Env) (rk : Str)
    (h : env "CORS_ALLOWED_ORIGINS" = none ∨
      ∃ s, env "CORS_ALLOWED_ORIGINS" = some s ∧ ∀ c ∈ s, c = ',' ∨ isPyWs c) :
    (loadSettings env rk).CORS_ALLOWED_ORIGINS = some [] ∧
      corsNoneWarning ∈ (loadSettings env rk).warnings := by
  have key : corsList ((env "CORS_ALLOWED_ORIGINS").getD []) = [] ∧
      env "CORS_ALLOWED_ORIGINS" ≠ some "*".data := by
    rcases h with h | ⟨s, hs, hall⟩
    · rw [h]
      exact ⟨by decide, by simp⟩
    · rw [hs]
      refine ⟨corsList_eq_nil_of_blank hall, ?_⟩
      intro hcontra
      have hs' : s = "*".data := Option.some.inj hcontra
      subst hs'
      have hstar := hall '*' (by decide)
      rcases hstar with h1 | h1
      · exact absurd h1 (by decide)
      · exact absurd h1 (by decide)
  obtain ⟨hnil, hstar⟩ := key
  constructor
  · simp only [loadSettings]
    rw [if_neg hstar, hnil]
  · simp only [loadSettings, warningsOf]
    rw [if_neg hstar, if_pos hnil]
    simp

/-- Witness for C1 at the empty environment. -/
theorem cors_empty_of_blank_env_witness :
    (loadSettings envNone []).CORS_ALLOWED_ORIGINS = some [] ∧
      corsNoneWarning ∈ (loadSettings envNone []).warnings :=
  cors_empty_of_blank_env envNone [] (Or.inl rfl)

/-- C2: if the environment variable `CORS_ALLOWED_ORIGINS` equals `"*"`,
all origins are allowed (`CORS_ALLOW_ALL_ORIGINS = True`) and a warning
is printed. -/
theorem cors_wildcard_allows_all (env : Env) (rk : Str)
    (h : env "CORS_ALLOWED_ORIGINS" = some "*".data) :
    (loadSettings env rk).CORS_ALLOW_ALL_ORIGINS = some true ∧
      corsAllWarning ∈ (loadSettings env rk).warnings := by
  constructor
  · simp only [loadSettings]
    rw [if_pos h]
  · simp only [loadSettings, warningsOf]
    rw [if_pos h]
    simp

/-- Witness for C2 at an environment with `CORS_ALLOWED_ORIGINS = "*"`. -/
theorem cors_wildcard_allows_all_witness :
    (loadSettings envStar []).CORS_ALLOW_ALL_ORIGINS = some true ∧
      corsAllWarning ∈ (loadSettings envStar []).warnings :=
  cors_wildcard_allows_all envStar [] (by decide)

/-- C9: `CORS_ALLOW_CREDENTIALS` is `True` for every assignment of the
environment variables (and every random key): no environment setting can
disable credentialed CORS requests. -/
theorem cors_allow_credentials_always (env : Env) (rk : Str) :
    (loadSettings env rk).CORS_ALLOW_CREDENTIALS = true := rfl

/-- C10: the all-origins wildcard is recognized only by exact, untrimmed
equality with `"*"`: for any other value, `CORS_ALLOW_ALL_ORIGINS` is never
assigned, the origin list is assigned, and every split piece with a
non-empty trim (in particular a piece trimming to the literal `"*"`)
appears in that list. -/
theorem cors_wildcard_exact_match_only (env : Env) (rk : Str) (s : Str)
    (h : env "CORS_ALLOWED_ORIGINS" = some s) (hne : s ≠ "*".data) :
    (loadSettings env rk).CORS_ALLOW_ALL_ORIGINS = none ∧
      ∃ l, (loadSettings env rk).CORS_ALLOWED_ORIGINS = some l ∧
        ∀ o ∈ splitComma s, pyStrip o ≠ [] → pyStrip o ∈ l := by
  have hstar : env "CORS_ALLOWED_ORIGINS" ≠ some "*".data := by
    rw [h]
    simpa using hne
  refine ⟨by simp only [loadSettings]; rw [if_neg hstar], ?_⟩
  refine ⟨corsList s, ?_, ?_⟩
  · simp only [loadSettings]
    rw [if_neg hstar, h]
    rfl
  · intro o ho hne'
    unfold corsList
    rw [List.mem_filterMap]
    exact ⟨o, ho, by rw [if_neg hne']⟩

/-- Witness for C10 at `CORS_ALLOWED_ORIGINS = " * "`: the padded wildcard
does not enable all origins. -/
theorem cors_wildcard_exact_match_only_witness :
    (loadSettings envStarPad []).CORS_ALLOW_ALL_ORIGINS = none ∧
      ∃ l, (loadSettings envStarPad []).CORS_ALLOWED_ORIGINS = some l ∧
        ∀ o ∈ splitComma " * ".data, pyStrip o ≠ [] → pyStrip o ∈ l :=
  cors_wildcard_exact_match_only envStarPad [] " * ".data (by decide) (by decide)

/-- The allowed-origin list as C3 words it: the value split on commas with
each entry trimmed — and nothing else.  This definition follows the claim's
words, to be compared with `corsList`, which follows the source. -/
def specSplitTrim (v : Str) : List Str := (splitComma v).map pyStrip

/-- C3 counterexample: with `CORS_ALLOWED_ORIGINS = "a,"` (a value other than
`"*"`), the setting is `["a"]`, not the split-and-trim list `["a", ""]`:
the code additionally discards entries that are empty after trimming. -/
theorem cors_split_trim_counterexample :
    envTrailingComma "CORS_ALLOWED_ORIGINS" = some "a,".data ∧
      "a,".data ≠ "*".data ∧
      (loadSettings envTrailingComma []).CORS_ALLOWED_ORIGINS ≠
        some (specSplitTrim "a,".data) := by
  refine ⟨by decide, by decide, ?_⟩
  decide

/-- C3 (amended): for every value of `CORS_ALLOWED_ORIGINS` other than `"*"`,
the resulting allowed-origin list equals the list obtained by splitting the
value on commas, trimming surrounding whitespace from each entry, and
discarding the entries that are empty after trimming. -/
theorem cors_split_trim_filter (env : Env) (rk : Str) (s : Str)
    (h : env "CORS_ALLOWED_ORIGINS" = some s) (hne : s ≠ "*".data) :
    (loadSettings env rk).CORS_ALLOWED_ORIGINS =
      some (((splitComma s).map pyStrip).filter (fun o => o ≠ [])) := by
  have hstar : env "CORS_ALLOWED_ORIGINS" ≠ some "*".data := by
    rw [h]
    simpa using hne
  simp only [loadSettings]
  rw [if_neg hstar, h, Option.getD_some, corsList_eq_map_filter]

/-- Witness for the amended C3 at `CORS_ALLOWED_ORIGINS = "a,"`. -/
theorem cors_split_trim_filter_witness :
    (loadSettings envTrailingComma []).CORS_ALLOWED_ORIGINS =
      some (((splitComma "a,".data).map pyStrip).filter (fun o => o ≠ [])) :=
  cors_split_trim_filter envTrailingComma [] "a,".data (by decide) (by decide)

/-- C4: if `DATABASE_URL` is absent, the URL handed to the database
configuration is `"sqlite:///db.sqlite3"` and a warning is printed
(`loadSettings` is a total function, so no error is raised). -/
theorem database_defaults_to_sqlite (env : Env) (rk : Str)
    (h : env "DATABASE_URL" = none) :
    (loadSettings env rk).DATABASE_URL = "sqlite:///db.sqlite3".data ∧
      dbWarning ∈ (loadSettings env rk).warnings := by
  have h0 : (env "DATABASE_URL").getD [] = [] := by rw [h]; rfl
  constructor
  · simp only [loadSettings, databaseUrlOf]
    rw [if_pos h0]
  · simp only [loadSettings, warningsOf]
    rw [if_pos h0]
    simp

/-- Witness for C4 at the empty environment. -/
theorem database_defaults_to_sqlite_witness :
    (loadSettings envNone []).DATABASE_URL = "sqlite:///db.sqlite3".data ∧
      dbWarning ∈ (loadSettings envNone []).warnings :=
  database_defaults_to_sqlite envNone [] rfl

/-- C5: if `DEBUG` equals `"True"`, the email backend is the console backend
and the console-handler and root log levels are `DEBUG`; for every other
value of `DEBUG` (including absent), the email backend is the SMTP backend
and the levels are `INFO`. -/
theorem debug_toggles_email_and_log_level (env : Env) (rk : Str) :
    (env "DEBUG" = some "True".data →
      (loadSettings env rk).EMAIL_BACKEND =
          "django.core.mail.backends.console.EmailBackend" ∧
        (loadSettings env rk).consoleLevel = "DEBUG" ∧
        (loadSettings env rk).rootLevel = "DEBUG") ∧
    (env "DEBUG" ≠ some "True".data →
      (loadSettings env rk).EMAIL_BACKEND =
          "django.core.mail.backends.smtp.EmailBackend" ∧
        (loadSettings env rk).consoleLevel = "INFO" ∧
        (loadSettings env rk).rootLevel = "INFO") := by
  constructor
  · intro h
    have hd : debugOf env = true := (debugOf_eq_true_iff env).mpr h
    simp [loadSettings, hd]
  · intro h
    have hd : debugOf env = false := by
      cases hb : debugOf env
      · rfl
      · exact absurd ((debugOf_eq_true_iff env).mp hb) h
    simp [loadSettings, hd]

/-- Witness for C5: `DEBUG = "True"` gives the console backend, an
environment without `DEBUG` gives the SMTP backend. -/
theorem debug_toggles_email_and_log_level_witness :
    (loadSettings envDebug []).EMAIL_BACKEND =
        "django.core.mail.backends.console.EmailBackend" ∧
      (loadSettings envNone []).EMAIL_BACKEND =
        "django.core.mail.backends.smtp.EmailBackend" :=
  ⟨((debug_toggles_email_and_log_level envDebug []).1 (by decide)).1,
   ((debug_toggles_email_and_log_level envNone []).2 (by decide)).1⟩

/-- C6: if `SECRET_KEY` is absent or empty, the setting is the freshly
generated random key and a warning is printed; otherwise the setting is
the environment value unchanged. -/
theorem secret_key_fallback_or_env (env : Env) (rk : Str) :
    ((env "SECRET_KEY" = none ∨ env "SECRET_KEY" = some []) →
      (loadSettings env rk).SECRET_KEY = rk ∧
        secretKeyWarning ∈ (loadSettings env rk).warnings) ∧
    (∀ s, env "SECRET_KEY" = some s → s ≠ [] →
      (loadSettings env rk).SECRET_KEY = s) := by
  constructor
  · intro h
    have h0 : (env "SECRET_KEY").getD [] = [] := by
      rcases h with h | h <;> rw [h] <;> rfl
    constructor
    · simp only [loadSettings, secretKeyOf]
      rw [if_pos h0]
    · simp only [loadSettings, warningsOf]
      rw [if_pos h0]
      simp
  · intro s hs hne
    have h0 : (env "SECRET_KEY").getD [] = s := by rw [hs]; rfl
    simp only [loadSettings, secretKeyOf]
    rw [h0, if_neg hne]

/-- Witness for C6 at the empty environment with random key `"k"`. -/
theorem secret_key_fallback_or_env_witness :
    (loadSettings envNone "k".data).SECRET_KEY = "k".data ∧
      secretKeyWarning ∈ (loadSettings envNone "k".data).warnings :=
  (secret_key_fallback_or_env envNone "k".data).1 (Or.inl rfl)

/-- C7: `ALLOWED_HOSTS` is always a list of strings (its type in the
embedding): the environment value split on commas, and the one-element list
`["localhost"]` when the variable is absent. -/
theorem allowed_hosts_from_env (env : Env) (rk : Str) :
    (env "ALLOWED_HOSTS" = none →
      (loadSettings env rk).ALLOWED_HOSTS = ["localhost".data]) ∧
    (∀ s, env "ALLOWED_HOSTS" = some s →
      (loadSettings env rk).ALLOWED_HOSTS = splitComma s) := by
  constructor
  · intro h
    simp only [loadSettings]
    rw [h]
    decide
  · intro s hs
    simp only [loadSettings]
    rw [hs]
    rfl

/-- Witness for C7 at the empty environment. -/
theorem allowed_hosts_from_env_witness :
    (loadSettings envNone []).ALLOWED_HOSTS = ["localhost".data] :=
  (allowed_hosts_from_env envNone []).1 rfl

/-- C8: for every environment (and any non-empty random key, as
`get_random_secret_key()` always returns one), the embedded settings module
is a total function and every branch produces a value: the secret key and
database URL are non-empty, the host list is non-empty, exactly one of the
two CORS settings is assigned, and the log levels and email backend are
each one of their two possible values. -/
theorem settings_module_total (env : Env) (rk : Str) (hrk : rk ≠ []) :
    (loadSettings env rk).SECRET_KEY ≠ [] ∧
      (loadSettings env rk).DATABASE_URL ≠ [] ∧
      (loadSettings env rk).ALLOWED_HOSTS ≠ [] ∧
      ((loadSettings env rk).CORS_ALLOW_ALL_ORIGINS = some true ∧
          (loadSettings env rk).CORS_ALLOWED_ORIGINS = none ∨
        (loadSettings env rk).CORS_ALLOW_ALL_ORIGINS = none ∧
          ∃ l, (loadSettings env rk).CORS_ALLOWED_ORIGINS = some l) ∧
      ((loadSettings env rk).consoleLevel = "DEBUG" ∨
        (loadSettings env rk).consoleLevel = "INFO") ∧
      ((loadSettings env rk).rootLevel = "DEBUG" ∨
        (loadSettings env rk).rootLevel = "INFO") ∧
      ((loadSettings env rk).EMAIL_BACKEND =
          "django.core.mail.backends.smtp.EmailBackend" ∨
        (loadSettings env rk).EMAIL_BACKEND =
          "django.core.mail.backends.console.EmailBackend") := by
  refine ⟨?_, ?_, ?_, ?_, ?_, ?_, ?_⟩
  · simp only [loadSettings, secretKeyOf]
    split
    · exact hrk
    · next h => exact h
  · simp only [loadSettings, databaseUrlOf]
    split
    · decide
    · next h => exact h
  · simp only [loadSettings]
    exact splitComma_ne_nil _
  · simp only [loadSettings]
    by_cases hc : env "CORS_ALLOWED_ORIGINS" = some "*".data
    · left
      rw [if_pos hc, if_pos hc]
      exact ⟨rfl, rfl⟩
    · right
      rw [if_neg hc, if_neg hc]
      exact ⟨rfl, _, rfl⟩
  · simp only [loadSettings]
    cases debugOf env <;> simp
  · simp only [loadSettings]
    cases debugOf env <;> simp
  · simp only [loadSettings]
    cases debugOf env <;> simp

/-- Witness for C8 at the empty environment with random key `"k"`. -/
theorem settings_module_total_witness :
    (loadSettings envNone "k".data).SECRET_KEY ≠ [] ∧
      (loadSettings envNone "k".data).DATABASE_URL ≠ [] ∧
      (loadSettings envNone "k".data).ALLOWED_HOSTS ≠ [] ∧
      ((loadSettings envNone "k".data).CORS_ALLOW_ALL_ORIGINS = some true ∧
          (loadSettings envNone "k".data).CORS_ALLOWED_ORIGINS = none ∨
        (loadSettings envNone "k".data).CORS_ALLOW_ALL_ORIGINS = none ∧
          ∃ l, (loadSettings envNone "k".data).CORS_ALLOWED_ORIGINS = some l) ∧
      ((loadSettings envNone "k".data).consoleLevel = "DEBUG" ∨
        (loadSettings envNone "k".data).consoleLevel = "INFO") ∧
      ((loadSettings envNone "k".data).rootLevel = "DEBUG" ∨
        (loadSettings envNone "k".data).rootLevel = "INFO") ∧
      ((loadSettings envNone "k".data).EMAIL_BACKEND =
          "django.core.mail.backends.smtp.EmailBackend" ∨
        (loadSettings envNone "k".data).EMAIL_BACKEND =
          "django.core.mail.backends.console.EmailBackend") :=
  settings_module_total envNone "k".data (by decide)
